import Mathlib

/-!
Verification of `mesa/visualization/modules/SVGGridVisualization.py`
(SVGGridModule and -Visualization for Mesa, D. Burgess, 2023).

The file under study defines a single class `SVGGrid` with a constructor
`__init__(self, portrayal_method, grid_width, grid_height, canvas_width=500,
canvas_height=500)` and a method `render(self, model)`:

```
def render(self, model):
    grid_state = []
    for agent in model.schedule.agents:
        portrayal = self.portrayal_method(agent)
        if portrayal:
            portrayal["x"] = agent.pos[0]
            portrayal["y"] = agent.pos[1]
            grid_state.append(portrayal)
    return grid_state
```

We embed the Python data shallowly:

* a portrayal dictionary is an association list `Portrayal := List (String × Val)`
  with Python's `d[k] = v` semantics (`dictSet`: update the first occurrence in
  place, else append) and lookup `dictGet?`;
* Python values appearing in portrayals are modelled by the tagged union `Val`;
* an agent exposes `pos`, an indexable sequence of integers (`List Int`), and a
  `unique_id`; a model carries `schedule.agents`;
* `self.portrayal_method(agent)` may return a dict, return `None`, or raise;
  we model it as `Agent → Except ε (Option Portrayal)`. Python truthiness of
  the result (`if portrayal:`) is false exactly for `None` and the empty dict;
* `agent.pos[0]` / `agent.pos[1]` may raise `IndexError`; `render` therefore
  returns `Except (RenderErr ε) (List Portrayal)`, where `RenderErr` separates
  an exception propagated from the portrayal function from an out-of-bounds
  position access (which records the offending index).

A second, heap-level embedding `renderHeap` makes the object identity of the
dictionaries observable: the portrayal function returns a reference into a
store of dictionaries, and `render`'s two assignments mutate the store at that
reference, so that aliasing and in-place update are provable facts.
-/

/-- A Python value stored in a portrayal dictionary: the file's documented
portrayals hold strings (`Shape`, `Color`, `text`, ...), integers (`Layer`,
injected `x`/`y`) and numbers such as `r`/`scale`; booleans are included for
completeness of the tagged union. -/
inductive Val : Type where
  | str : String → Val
  | int : Int → Val
  | bool : Bool → Val
deriving DecidableEq

/-- A portrayal dictionary: ordered association list of string keys to values,
mirroring a Python `dict` (insertion-ordered, unique keys). -/
abbrev Portrayal : Type := List (String × Val)

/-- Python `d[k]`-style lookup: the value at the first occurrence of key `k`. -/
def dictGet? : Portrayal → String → Option Val
  | [], _ => none
  | (k0, v0) :: rest, k => if k0 = k then some v0 else dictGet? rest k

/-- Python `d[k] = v`: replace the value at the first occurrence of `k`,
keeping its position; if `k` is absent, append `(k, v)` at the end. -/
def dictSet : Portrayal → String → Val → Portrayal
  | [], k, v => [(k, v)]
  | (k0, v0) :: rest, k, v =>
    if k0 = k then (k0, v) :: rest else (k0, v0) :: dictSet rest k v

/-- An agent as seen by `render`: it exposes a position `agent.pos`, an
indexable sequence of integers (a Mesa grid position is a 2-tuple, but the
code only ever indexes it, so we keep the general sequence), and the usual
Mesa `unique_id`, which the user's portrayal function may inspect. -/
structure Agent : Type where
  unique_id : Nat
  pos : List Int
deriving DecidableEq

/-- The scheduler as seen by `render`: only its ordered `agents` list is read. -/
structure Schedule : Type where
  agents : List Agent
deriving DecidableEq

/-- The model as seen by `render`: only `model.schedule` is read. -/
structure Model : Type where
  schedule : Schedule
deriving DecidableEq

/-- What a call of `render` can raise: an exception propagated out of the
user's portrayal function, or an `IndexError` from `agent.pos[i]` (the payload
records which index was out of bounds). -/
inductive RenderErr (ε : Type) : Type where
  | portrayalErr : ε → RenderErr ε
  | indexErr : Nat → RenderErr ε
deriving DecidableEq

/-- The `SVGGrid` visualization element: the five fields assigned by
`__init__` plus the bootstrap string `js_code` it builds.  The class attribute
`package_includes = ["SVGGridModule.js"]` is carried as a field with a fixed
default in `SVGGrid.init` below. -/
structure SVGGrid (ε : Type) : Type where
  package_includes : List String
  portrayal_method : Agent → Except ε (Option Portrayal)
  grid_width : Int
  grid_height : Int
  canvas_width : Int
  canvas_height : Int
  js_code : String

/-- Python `str.format` for positional `\x7b\x7d` fields: each occurrence of
the two-character sequence `\x7b\x7d` is replaced by the next argument. -/
def pyFormatAux : List Char → List String → List Char
  | '\x7b' :: '\x7d' :: rest, a :: args => a.data ++ pyFormatAux rest args
  | c :: rest, args => c :: pyFormatAux rest args
  | [], _ => []

/-- Python `template.format(args...)` (positional, brace-pair fields only). -/
def pyFormat (template : String) (args : List String) : String :=
  String.mk (pyFormatAux template.data args)

/-- Python `__init__` of `SVGGrid`: store the five parameters and build `js_code` from the
template `"new SVGGridModule(\x7b\x7d, \x7b\x7d, \x7b\x7d, \x7b\x7d)"` formatted with canvas
width, canvas height, grid width, grid height, in that order. -/
def SVGGrid.init {ε : Type} (portrayal_method : Agent → Except ε (Option Portrayal))
    (grid_width grid_height canvas_width canvas_height : Int) : SVGGrid ε :=
  let new_element :=
    pyFormat "new SVGGridModule(\x7b\x7d, \x7b\x7d, \x7b\x7d, \x7b\x7d)"
      [toString canvas_width, toString canvas_height, toString grid_width,
        toString grid_height]
  { package_includes := ["SVGGridModule.js"]
    portrayal_method := portrayal_method
    grid_width := grid_width
    grid_height := grid_height
    canvas_width := canvas_width
    canvas_height := canvas_height
    js_code := "window.onload = function() \x7belements.push(" ++ new_element ++ ");\x7d;" }

/-- Calling `SVGGrid(portrayal_method, grid_width, grid_height)` with the two trailing
parameters omitted: Python fills in the declared defaults `500, 500`. -/
def SVGGrid.initDefault {ε : Type} (portrayal_method : Agent → Except ε (Option Portrayal))
    (grid_width grid_height : Int) : SVGGrid ε :=
  SVGGrid.init portrayal_method grid_width grid_height 500 500

/-- The loop body of `render`, one agent at a time over the agent list:
call the portrayal function (propagating its exception), test Python
truthiness of the result (`None` and the empty dict are falsy and skipped),
evaluate `agent.pos[0]` then `agent.pos[1]` (raising `IndexError` with the
offending index if out of bounds), perform the two dictionary assignments,
and append to the frame being built. -/
def renderList {ε : Type} (fn : Agent → Except ε (Option Portrayal)) :
    List Agent → Except (RenderErr ε) (List Portrayal)
  | [] => Except.ok []
  | a :: rest =>
    match fn a with
    | Except.error e => Except.error (RenderErr.portrayalErr e)
    | Except.ok none => renderList fn rest
    | Except.ok (some p) =>
      if p.isEmpty then renderList fn rest
      else
        match a.pos[0]? with
        | none => Except.error (RenderErr.indexErr 0)
        | some x =>
          match a.pos[1]? with
          | none => Except.error (RenderErr.indexErr 1)
          | some y =>
            match renderList fn rest with
            | Except.error e => Except.error e
            | Except.ok l =>
              Except.ok (dictSet (dictSet p "x" (Val.int x)) "y" (Val.int y) :: l)

/-- Method `render(self, model)` of `SVGGrid`: iterate `model.schedule.agents` with the
stored `self.portrayal_method` and return the accumulated `grid_state`. -/
def SVGGrid.render {ε : Type} (g : SVGGrid ε) (model : Model) :
    Except (RenderErr ε) (List Portrayal) :=
  renderList g.portrayal_method model.schedule.agents

/-- Python truthiness of `self.portrayal_method(agent)` as used by the guard
`if portrayal:`: true exactly when the call returned a non-empty dict. -/
def keep {ε : Type} (r : Except ε (Option Portrayal)) : Bool :=
  match r with
  | Except.ok (some p) => !p.isEmpty
  | _ => false

/-- The two coordinate assignments `portrayal["x"] = x; portrayal["y"] = y`. -/
def injectXY (p : Portrayal) (x y : Int) : Portrayal :=
  dictSet (dictSet p "x" (Val.int x)) "y" (Val.int y)

/-- The frame entry contributed by one (kept) agent: its portrayal with the
agent's first two position components written under `"x"` and `"y"`.
On agents that are skipped or raise, the value is irrelevant (`[]`). -/
def renderEntry {ε : Type} (fn : Agent → Except ε (Option Portrayal)) (a : Agent) :
    Portrayal :=
  match fn a with
  | Except.ok (some p) => injectXY p (a.pos.getD 0 0) (a.pos.getD 1 0)
  | _ => []

/-- One loop iteration cannot raise at agent `a`: the portrayal function
returns normally, and if its result is truthy the position has the two
components the assignments read. -/
def stepOk {ε : Type} (fn : Agent → Except ε (Option Portrayal)) (a : Agent) : Bool :=
  match fn a with
  | Except.error _ => false
  | Except.ok none => true
  | Except.ok (some p) => p.isEmpty || decide (2 ≤ a.pos.length)

/-- The store of live portrayal dictionaries, for the heap-level view of
`render`: a reference is an index into `dicts`. -/
structure Heap : Type where
  dicts : List Portrayal
deriving DecidableEq

/-- Dereference: the dictionary a reference points to. -/
def heapGet (h : Heap) (r : Nat) : Portrayal :=
  h.dicts.getD r []

/-- In-place update of the dictionary a reference points to. -/
def heapSet (h : Heap) (r : Nat) (p : Portrayal) : Heap :=
  ⟨h.dicts.set r p⟩

/-- Heap-level embedding of the `render` loop, making object identity
observable: the portrayal function returns a reference into the heap (and may
itself allocate or mutate, hence the `Heap → Option Nat × Heap` type), and the
two assignments `portrayal["x"] = ...; portrayal["y"] = ...` mutate the heap
at that very reference; the reference itself — not a copy — is appended to
`grid_state`.  Position reads use `getD` (positions are assumed in bounds
here; the exception-level embedding `renderList` covers out-of-bounds). -/
def renderHeap (fn : Agent → Heap → Option Nat × Heap) :
    List Agent → Heap → List Nat × Heap
  | [], h => ([], h)
  | a :: rest, h =>
    match fn a h with
    | (none, h1) => renderHeap fn rest h1
    | (some r, h1) =>
      if (heapGet h1 r).isEmpty then renderHeap fn rest h1
      else
        let h2 := heapSet h1 r
          (injectXY (heapGet h1 r) (a.pos.getD 0 0) (a.pos.getD 1 0))
        let res := renderHeap fn rest h2
        (r :: res.1, res.2)

example : renderList
    (fun _ => (Except.ok (some [("Shape", Val.str "square"), ("x", Val.int 99), ("y", Val.int 99)]) :
      Except Unit (Option Portrayal)))
    [⟨0, [1, 1]⟩] =
    Except.ok [[("Shape", Val.str "square"), ("x", Val.int 1), ("y", Val.int 1)]] := rfl

example : renderList (fun _ => (Except.ok none : Except Unit (Option Portrayal))) [] =
    Except.ok [] := rfl

example : (SVGGrid.init (fun _ => (Except.ok none : Except Unit (Option Portrayal))) 10 12 500 600).js_code =
    "window.onload = function() \x7belements.push(new SVGGridModule(500, 600, 10, 12));\x7d;" := by
  decide

/-! ## Dictionary lemmas -/

/-- After `d[k] = v`, looking up `k` yields `v`, whatever was stored before. -/
theorem dictGet?_dictSet_self (p : Portrayal) (k : String) (v : Val) :
    dictGet? (dictSet p k v) k = some v := by
  induction p with
  | nil => simp [dictSet, dictGet?]
  | cons kv rest ih =>
    obtain ⟨k0, v0⟩ := kv
    by_cases hk : k0 = k
    · simp [dictSet, dictGet?, hk]
    · simp [dictSet, dictGet?, hk, ih]

/-- Setting `d[k] = v` leaves every other key's binding unchanged. -/
theorem dictGet?_dictSet_ne (p : Portrayal) (k k' : String) (v : Val)
    (h : k' ≠ k) : dictGet? (dictSet p k v) k' = dictGet? p k' := by
  induction p with
  | nil => simp [dictSet, dictGet?, Ne.symm h]
  | cons kv rest ih =>
    obtain ⟨k0, v0⟩ := kv
    by_cases hk : k0 = k
    · subst hk
      simp [dictSet, dictGet?, Ne.symm h]
    · simp [dictSet, dictGet?, hk, ih]

/-! ## Characterization of the render loop on successful runs -/

/-- A successful run of the loop returns exactly the kept agents, in input
order, each mapped to its portrayal with the coordinates injected. -/
theorem renderList_ok_eq {ε : Type} (fn : Agent → Except ε (Option Portrayal))
    (agents : List Agent) (out : List Portrayal)
    (h : renderList fn agents = Except.ok out) :
    out = (agents.filter (fun a => keep (fn a))).map (renderEntry fn) := by
  induction agents generalizing out with
  | nil =>
    simp only [renderList] at h
    cases h
    simp
  | cons a rest ih =>
    cases hfn : fn a with
    | error e => simp [renderList, hfn] at h
    | ok r =>
      cases r with
      | none =>
        simp only [renderList, hfn] at h
        have hkeep : keep (fn a) = false := by simp [keep, hfn]
        simp only [List.filter_cons, hkeep, Bool.false_eq_true, if_neg,
          not_false_iff]
        exact ih out h
      | some p =>
        by_cases hp : p.isEmpty
        · simp only [renderList, hfn, hp, if_true] at h
          have hkeep : keep (fn a) = false := by simp [keep, hfn, hp]
          simp only [List.filter_cons, hkeep, Bool.false_eq_true, if_neg,
            not_false_iff]
          exact ih out h
        · cases hx : a.pos[0]? with
          | none => simp [renderList, hfn, hp, hx] at h
          | some x =>
            cases hy : a.pos[1]? with
            | none => simp [renderList, hfn, hp, hx, hy] at h
            | some y =>
              cases hrest : renderList fn rest with
              | error e => simp [renderList, hfn, hp, hx, hy, hrest] at h
              | ok l =>
                simp only [renderList, hfn, hp, hx, hy, hrest,
                  Bool.false_eq_true, if_neg, not_false_iff,
                  Except.ok.injEq] at h
                have hkeep : keep (fn a) = true := by simp [keep, hfn, hp]
                have hentry : renderEntry fn a =
                    dictSet (dictSet p "x" (Val.int x)) "y" (Val.int y) := by
                  simp only [renderEntry, hfn, injectXY]
                  rw [List.getD_eq_getElem?_getD, hx, List.getD_eq_getElem?_getD, hy]
                  rfl
                simp only [List.filter_cons, hkeep, if_pos, List.map_cons,
                  hentry]
                rw [← h, ih l hrest]

/-- Looking up `"x"` after the two coordinate assignments yields the injected
`x`, whatever the dictionary previously held under that key. -/
theorem dictGet?_injectXY_x (p : Portrayal) (x y : Int) :
    dictGet? (injectXY p x y) "x" = some (Val.int x) := by
  unfold injectXY
  rw [dictGet?_dictSet_ne _ _ _ _ (by decide)]
  exact dictGet?_dictSet_self p "x" (Val.int x)

/-- Looking up `"y"` after the two coordinate assignments yields the injected
`y`, whatever the dictionary previously held under that key. -/
theorem dictGet?_injectXY_y (p : Portrayal) (x y : Int) :
    dictGet? (injectXY p x y) "y" = some (Val.int y) :=
  dictGet?_dictSet_self _ "y" (Val.int y)

/-- The coordinate assignments leave every key other than `"x"`/`"y"` bound
exactly as in the original dictionary. -/
theorem dictGet?_injectXY_ne (p : Portrayal) (x y : Int) (k : String)
    (hx : k ≠ "x") (hy : k ≠ "y") :
    dictGet? (injectXY p x y) k = dictGet? p k := by
  unfold injectXY
  rw [dictGet?_dictSet_ne _ _ _ _ hy, dictGet?_dictSet_ne _ _ _ _ hx]

/-- On a successful run, every kept agent's position had the two components
the assignments read. -/
theorem renderList_ok_pos {ε : Type} (fn : Agent → Except ε (Option Portrayal))
    (agents : List Agent) (out : List Portrayal)
    (h : renderList fn agents = Except.ok out) :
    ∀ a ∈ agents, keep (fn a) = true → 2 ≤ a.pos.length := by
  induction agents generalizing out with
  | nil => simp
  | cons a rest ih =>
    intro b hb hkeep
    cases hfn : fn a with
    | error e => simp [renderList, hfn] at h
    | ok r =>
      cases r with
      | none =>
        simp only [renderList, hfn] at h
        rcases List.mem_cons.mp hb with hba | hbr
        · subst hba
          simp [keep, hfn] at hkeep
        · exact ih out h b hbr hkeep
      | some p =>
        by_cases hp : p.isEmpty
        · simp only [renderList, hfn, hp, if_true] at h
          rcases List.mem_cons.mp hb with hba | hbr
          · subst hba
            simp [keep, hfn, hp] at hkeep
          · exact ih out h b hbr hkeep
        · cases hx : a.pos[0]? with
          | none => simp [renderList, hfn, hp, hx] at h
          | some x =>
            cases hy : a.pos[1]? with
            | none => simp [renderList, hfn, hp, hx, hy] at h
            | some y =>
              cases hrest : renderList fn rest with
              | error e => simp [renderList, hfn, hp, hx, hy, hrest] at h
              | ok l =>
                rcases List.mem_cons.mp hb with hba | hbr
                · subst hba
                  have hlt : 1 < b.pos.length := by
                    by_contra hlen
                    rw [List.getElem?_eq_none (by omega)] at hy
                    cases hy
                  omega
                · exact ih l hrest b hbr hkeep

/-! ## Claim theorems -/

/-- C1: for every agent whose portrayal is non-absent, the corresponding entry
of the frame returned by `render` holds the agent's actual grid coordinates
under `"x"` and `"y"` — its position's first and second components — even when
the portrayal function had set different values under those keys (the
injection overwrites them; the statement quantifies over arbitrary `p`,
including dictionaries already containing `"x"`/`"y"`). -/
theorem render_overwrites_coordinates {ε : Type} (g : SVGGrid ε) (model : Model)
    (out : List Portrayal) (a : Agent) (p : Portrayal)
    (hout : g.render model = Except.ok out)
    (ha : a ∈ model.schedule.agents)
    (hp : g.portrayal_method a = Except.ok (some p))
    (hne : p.isEmpty = false) :
    2 ≤ a.pos.length ∧
    renderEntry g.portrayal_method a ∈ out ∧
    dictGet? (renderEntry g.portrayal_method a) "x" = some (Val.int (a.pos.getD 0 0)) ∧
    dictGet? (renderEntry g.portrayal_method a) "y" = some (Val.int (a.pos.getD 1 0)) := by
  have hout' : renderList g.portrayal_method model.schedule.agents = Except.ok out := hout
  have hkeep : keep (g.portrayal_method a) = true := by simp [keep, hp, hne]
  refine ⟨renderList_ok_pos _ _ _ hout' a ha hkeep, ?_, ?_, ?_⟩
  · rw [renderList_ok_eq _ _ _ hout']
    exact List.mem_map_of_mem _ (List.mem_filter.mpr ⟨ha, hkeep⟩)
  · simp only [renderEntry, hp]
    exact dictGet?_injectXY_x p _ _
  · simp only [renderEntry, hp]
    exact dictGet?_injectXY_y p _ _

/-- C2: the length of a successfully returned frame equals the number of
agents whose portrayal is non-absent (`None` or empty results contribute
nothing), it never exceeds the number of agents, and the empty agent sequence
yields the empty frame. -/
theorem render_length_eq_kept_count {ε : Type} (g : SVGGrid ε) (model : Model)
    (out : List Portrayal)
    (hout : g.render model = Except.ok out) :
    out.length = model.schedule.agents.countP (fun a => keep (g.portrayal_method a)) ∧
    out.length ≤ model.schedule.agents.length ∧
    g.render ⟨⟨[]⟩⟩ = Except.ok [] := by
  have hout' : renderList g.portrayal_method model.schedule.agents = Except.ok out := hout
  have hchar := renderList_ok_eq _ _ _ hout'
  refine ⟨?_, ?_, rfl⟩
  · rw [hchar, List.length_map, List.countP_eq_length_filter]
  · rw [hchar, List.length_map]
    exact List.length_filter_le _ _

/-- C3: on a successful run the output is exactly the input agent order with
the skipped agents removed — the frame is the list of kept agents, in input
order, each mapped to its injected portrayal; in particular, of two kept
agents the earlier one's entry precedes the later one's. -/
theorem render_preserves_order {ε : Type} (g : SVGGrid ε) (model : Model)
    (out : List Portrayal)
    (hout : g.render model = Except.ok out) :
    out = (model.schedule.agents.filter (fun a => keep (g.portrayal_method a))).map
      (renderEntry g.portrayal_method) :=
  renderList_ok_eq _ _ _ hout

/-- C4: pass-through framing — for a kept agent, every key other than `"x"`
and `"y"` is bound in the output entry exactly as the portrayal function left
it (unchanged, unvalidated), and in particular `"r"` and `"scale"` pass
through independently, never merged into one another. -/
theorem render_passes_through_other_keys {ε : Type} (g : SVGGrid ε) (model : Model)
    (out : List Portrayal) (a : Agent) (p : Portrayal) (k : String)
    (hout : g.render model = Except.ok out)
    (ha : a ∈ model.schedule.agents)
    (hp : g.portrayal_method a = Except.ok (some p))
    (hne : p.isEmpty = false)
    (hkx : k ≠ "x") (hky : k ≠ "y") :
    renderEntry g.portrayal_method a ∈ out ∧
    dictGet? (renderEntry g.portrayal_method a) k = dictGet? p k ∧
    dictGet? (renderEntry g.portrayal_method a) "r" = dictGet? p "r" ∧
    dictGet? (renderEntry g.portrayal_method a) "scale" = dictGet? p "scale" := by
  have hout' : renderList g.portrayal_method model.schedule.agents = Except.ok out := hout
  have hkeep : keep (g.portrayal_method a) = true := by simp [keep, hp, hne]
  refine ⟨?_, ?_, ?_, ?_⟩
  · rw [renderList_ok_eq _ _ _ hout']
    exact List.mem_map_of_mem _ (List.mem_filter.mpr ⟨ha, hkeep⟩)
  · simp only [renderEntry, hp]
    exact dictGet?_injectXY_ne p _ _ k hkx hky
  · simp only [renderEntry, hp]
    exact dictGet?_injectXY_ne p _ _ "r" (by decide) (by decide)
  · simp only [renderEntry, hp]
    exact dictGet?_injectXY_ne p _ _ "scale" (by decide) (by decide)

/-- C6: `render` is deterministic and stateless — its result is a function of
the portrayal function and the agent sequence alone: any two `SVGGrid`
instances sharing the portrayal function, applied to any two models with equal
agent sequences, return equal frames (so repeated invocations agree, nothing
is retained between steps, and no other field of the instance matters). -/
theorem render_deterministic_stateless {ε : Type} (g1 g2 : SVGGrid ε)
    (m1 m2 : Model)
    (hfn : g1.portrayal_method = g2.portrayal_method)
    (hagents : m1.schedule.agents = m2.schedule.agents) :
    g1.render m1 = g2.render m2 := by
  simp [SVGGrid.render, hfn, hagents]

/-- An exception from the portrayal function, first reached after a prefix of
well-behaved agents, aborts the whole loop with exactly that exception. -/
theorem renderList_append_error {ε : Type} (fn : Agent → Except ε (Option Portrayal))
    (a : Agent) (e : ε) (post : List Agent)
    (ha : fn a = Except.error e) :
    ∀ pre : List Agent, (∀ b ∈ pre, stepOk fn b = true) →
      renderList fn (pre ++ a :: post) = Except.error (RenderErr.portrayalErr e) := by
  intro pre
  induction pre with
  | nil =>
    intro _
    simp [renderList, ha]
  | cons b pre ih =>
    intro hpre
    have hb := hpre b (List.mem_cons_self b pre)
    have hpre' : ∀ c ∈ pre, stepOk fn c = true :=
      fun c hc => hpre c (List.mem_cons_of_mem b hc)
    cases hfb : fn b with
    | error e0 => simp [stepOk, hfb] at hb
    | ok r =>
      cases r with
      | none =>
        simp only [List.cons_append, renderList, hfb]
        exact ih hpre'
      | some p =>
        by_cases hp : p.isEmpty
        · simp only [List.cons_append, renderList, hfb, hp, if_true]
          exact ih hpre'
        · have hlen : 2 ≤ b.pos.length := by
            simp [stepOk, hfb, hp] at hb
            exact hb
          have hx : b.pos[0]? = some (b.pos.getD 0 0) := by
            rw [List.getD_eq_getElem?_getD, List.getElem?_eq_getElem (by omega)]
            rfl
          have hy : b.pos[1]? = some (b.pos.getD 1 0) := by
            rw [List.getD_eq_getElem?_getD, List.getElem?_eq_getElem (by omega)]
            rfl
          simp only [List.cons_append, renderList, hfb, hp, hx, hy,
            Bool.false_eq_true, if_neg, not_false_iff, List.append_eq]
          rw [ih hpre']

/-- C5: error propagation with atomicity — `render` raises nothing of its own;
if the portrayal function raises at some agent (all agents before it having
been processed normally), the very same exception propagates to the caller and
the run produces no frame at all, partial or otherwise. -/
theorem render_propagates_portrayal_error {ε : Type} (g : SVGGrid ε) (model : Model)
    (pre post : List Agent) (a : Agent) (e : ε)
    (hagents : model.schedule.agents = pre ++ a :: post)
    (hpre : ∀ b ∈ pre, stepOk g.portrayal_method b = true)
    (ha : g.portrayal_method a = Except.error e) :
    g.render model = Except.error (RenderErr.portrayalErr e) := by
  show renderList g.portrayal_method model.schedule.agents = _
  rw [hagents]
  exact renderList_append_error _ a e post ha pre hpre

/-- The fixed-template `format` call of `__init__`, for arbitrary argument
strings: the four arguments land between the template's literal pieces, in
order. -/
theorem pyFormat_four_args (s1 s2 s3 s4 : String) :
    pyFormat "new SVGGridModule(\x7b\x7d, \x7b\x7d, \x7b\x7d, \x7b\x7d)" [s1, s2, s3, s4] =
    "new SVGGridModule(" ++ s1 ++ ", " ++ s2 ++ ", " ++ s3 ++ ", " ++ s4 ++ ")" := by
  obtain ⟨d1⟩ := s1
  obtain ⟨d2⟩ := s2
  obtain ⟨d3⟩ := s3
  obtain ⟨d4⟩ := s4
  simp only [pyFormat, pyFormatAux, HAppend.hAppend, Append.append, String.append]
  apply congrArg String.mk
  simp [List.append_assoc]

/-- C7: the bootstrap string built by `__init__` passes exactly four numeric
parameters to the renderer's constructor, in the order canvas width, canvas
height, grid width, grid height. -/
theorem init_js_code_four_params {ε : Type}
    (pm : Agent → Except ε (Option Portrayal)) (gw gh cw ch : Int) :
    (SVGGrid.init pm gw gh cw ch).js_code =
    "window.onload = function() \x7belements.push(new SVGGridModule(" ++
      toString cw ++ ", " ++ toString ch ++ ", " ++ toString gw ++ ", " ++
      toString gh ++ "));\x7d;" := by
  show "window.onload = function() \x7belements.push(" ++
      pyFormat "new SVGGridModule(\x7b\x7d, \x7b\x7d, \x7b\x7d, \x7b\x7d)"
        [toString cw, toString ch, toString gw, toString gh] ++ ");\x7d;" = _
  rw [pyFormat_four_args]
  generalize toString cw = s1
  generalize toString ch = s2
  generalize toString gw = s3
  generalize toString gh = s4
  obtain ⟨d1⟩ := s1
  obtain ⟨d2⟩ := s2
  obtain ⟨d3⟩ := s3
  obtain ⟨d4⟩ := s4
  simp only [HAppend.hAppend, Append.append, String.append]
  apply congrArg String.mk
  simp [List.append_assoc]

/-- C9: `__init__` with the trailing canvas parameters omitted defaults both
to `500`, and all five constructor parameters are stored unchanged in the
corresponding instance fields. -/
theorem init_stores_fields_and_defaults {ε : Type}
    (pm : Agent → Except ε (Option Portrayal)) (gw gh cw ch : Int) :
    (SVGGrid.initDefault pm gw gh).canvas_width = 500 ∧
    (SVGGrid.initDefault pm gw gh).canvas_height = 500 ∧
    SVGGrid.initDefault pm gw gh = SVGGrid.init pm gw gh 500 500 ∧
    (SVGGrid.init pm gw gh cw ch).portrayal_method = pm ∧
    (SVGGrid.init pm gw gh cw ch).grid_width = gw ∧
    (SVGGrid.init pm gw gh cw ch).grid_height = gh ∧
    (SVGGrid.init pm gw gh cw ch).canvas_width = cw ∧
    (SVGGrid.init pm gw gh cw ch).canvas_height = ch :=
  ⟨rfl, rfl, rfl, rfl, rfl, rfl, rfl, rfl⟩

/-- Under the per-agent position precondition, the loop never raises an
`IndexError`. -/
theorem renderList_no_indexErr {ε : Type} (fn : Agent → Except ε (Option Portrayal))
    (agents : List Agent)
    (hpos : ∀ a ∈ agents, keep (fn a) = true → 2 ≤ a.pos.length) :
    ∀ i : Nat, renderList fn agents ≠ Except.error (RenderErr.indexErr i) := by
  induction agents with
  | nil =>
    intro i h
    simp [renderList] at h
  | cons a rest ih =>
    intro i h
    have hrest : ∀ b ∈ rest, keep (fn b) = true → 2 ≤ b.pos.length :=
      fun b hb => hpos b (List.mem_cons_of_mem a hb)
    cases hfn : fn a with
    | error e => simp [renderList, hfn] at h
    | ok r =>
      cases r with
      | none =>
        simp only [renderList, hfn] at h
        exact ih hrest i h
      | some p =>
        by_cases hp : p.isEmpty
        · simp only [renderList, hfn, hp, if_true] at h
          exact ih hrest i h
        · have hlen : 2 ≤ a.pos.length := by
            refine hpos a (List.mem_cons_self a rest) ?_
            simp [keep, hfn, hp]
          have hx : a.pos[0]? = some (a.pos.getD 0 0) := by
            rw [List.getD_eq_getElem?_getD, List.getElem?_eq_getElem (by omega)]
            rfl
          have hy : a.pos[1]? = some (a.pos.getD 1 0) := by
            rw [List.getD_eq_getElem?_getD, List.getElem?_eq_getElem (by omega)]
            rfl
          simp only [renderList, hfn, hp, hx, hy, Bool.false_eq_true, if_neg,
            not_false_iff] at h
          cases hrl : renderList fn rest with
          | error e =>
            rw [hrl] at h
            cases h
            exact ih hrest i hrl
          | ok l =>
            rw [hrl] at h
            cases h

/-- C10: `render` reads only the first two components of a kept agent's
position; provided every agent with a non-absent portrayal has a position of
at least two components, those reads are in bounds and `render` can never fail
with an `IndexError`. -/
theorem render_position_access_safe {ε : Type} (g : SVGGrid ε) (model : Model)
    (hpos : ∀ a ∈ model.schedule.agents,
      keep (g.portrayal_method a) = true → 2 ≤ a.pos.length)
    (i : Nat) :
    g.render model ≠ Except.error (RenderErr.indexErr i) :=
  renderList_no_indexErr _ _ hpos i

/-- The loop allocates nothing of its own: whenever the portrayal function
leaves the heap's population unchanged, so does the whole loop, over any
agent sequence — every dictionary in the final heap is one of the caller's
dictionaries, updated in place. -/
theorem renderHeap_preserves_population (fn : Agent → Heap → Option Nat × Heap)
    (halloc : ∀ b k, (fn b k).2.dicts.length = k.dicts.length) :
    ∀ (agents : List Agent) (h : Heap),
      (renderHeap fn agents h).2.dicts.length = h.dicts.length := by
  intro agents
  induction agents with
  | nil => intro h; rfl
  | cons b rest ih =>
    intro h
    cases hfb : fn b h with
    | mk r? h1 =>
      have hlen : h1.dicts.length = h.dicts.length := by
        have := halloc b h
        rw [hfb] at this
        exact this
      cases r? with
      | none =>
        simp only [renderHeap, hfb]
        rw [ih h1, hlen]
      | some r =>
        by_cases hp : (heapGet h1 r).isEmpty
        · simp only [renderHeap, hfb, hp, if_true]
          rw [ih h1, hlen]
        · simp only [renderHeap, hfb, hp, Bool.false_eq_true, if_neg,
            not_false_iff]
          rw [ih, heapSet, List.length_set, hlen]

/-- C8: no defensive copy — at every step of the loop, over an arbitrary
remaining agent sequence, when the portrayal function call returns a reference
`r` to a non-empty dictionary, the frame contributed is `r` itself (the very
object the portrayal function returned) consed onto the rest of the run, and
the run continues in the heap updated in place at `r` with the two coordinate
assignments; moreover, over any agent sequence, `render` allocates no copy:
it leaves the heap's population unchanged whenever the portrayal function
does. -/
theorem renderHeap_mutates_in_place (fn : Agent → Heap → Option Nat × Heap)
    (a : Agent) (rest agents : List Agent) (h h1 hh : Heap) (r : Nat)
    (hfn : fn a h = (some r, h1))
    (hne : (heapGet h1 r).isEmpty = false)
    (halloc : ∀ b k, (fn b k).2.dicts.length = k.dicts.length) :
    renderHeap fn (a :: rest) h =
      (r :: (renderHeap fn rest (heapSet h1 r (injectXY (heapGet h1 r)
          (a.pos.getD 0 0) (a.pos.getD 1 0)))).1,
        (renderHeap fn rest (heapSet h1 r (injectXY (heapGet h1 r)
          (a.pos.getD 0 0) (a.pos.getD 1 0)))).2) ∧
    (renderHeap fn agents hh).2.dicts.length = hh.dicts.length := by
  constructor
  · simp [renderHeap, hfn, hne]
  · exact renderHeap_preserves_population fn halloc agents hh

/-! ## Concrete witness data -/

/-- A concrete portrayal function exercising every branch: a kept plain
portrayal, a `None`, an empty dict, and a kept portrayal that already sets
`"x"`/`"y"` and both `"r"` and `"scale"`. -/
def wFn : Agent → Except Unit (Option Portrayal) := fun a =>
  if a.unique_id = 0 then
    Except.ok (some [("Shape", Val.str "circle"), ("Color", Val.str "red"),
      ("Layer", Val.int 0)])
  else if a.unique_id = 1 then Except.ok none
  else if a.unique_id = 2 then Except.ok (some [])
  else Except.ok (some [("Shape", Val.str "square"), ("x", Val.int 99),
    ("y", Val.int 99), ("r", Val.int 1), ("scale", Val.int 2)])

/-- The portrayal `wFn` returns for `wAgentD`. -/
def wPD : Portrayal :=
  [("Shape", Val.str "square"), ("x", Val.int 99), ("y", Val.int 99),
    ("r", Val.int 1), ("scale", Val.int 2)]

def wAgentA : Agent := ⟨0, [0, 0]⟩

def wAgentB : Agent := ⟨1, [2, 3]⟩

def wAgentC : Agent := ⟨2, [4, 5]⟩

def wAgentD : Agent := ⟨3, [1, 1]⟩

def wGrid : SVGGrid Unit := SVGGrid.init wFn 10 10 500 500

def wModel : Model := ⟨⟨[wAgentA, wAgentB, wAgentC, wAgentD]⟩⟩

/-- The frame `wGrid.render wModel` produces: agents B and C are skipped,
A gets `x`/`y` appended, D gets its `x`/`y` overwritten in place. -/
def wOut : List Portrayal :=
  [[("Shape", Val.str "circle"), ("Color", Val.str "red"), ("Layer", Val.int 0),
    ("x", Val.int 0), ("y", Val.int 0)],
   [("Shape", Val.str "square"), ("x", Val.int 1), ("y", Val.int 1),
    ("r", Val.int 1), ("scale", Val.int 2)]]

example : wGrid.render wModel = Except.ok wOut := rfl

/-! ## Witnesses -/

/-- Witness for C1 at agent D, whose portrayal set `x = 99`, `y = 99`: the
rendered entry holds `x = 1`, `y = 1`, its actual position. -/
theorem render_overwrites_coordinates_witness :
    2 ≤ wAgentD.pos.length ∧
    renderEntry wGrid.portrayal_method wAgentD ∈ wOut ∧
    dictGet? (renderEntry wGrid.portrayal_method wAgentD) "x" =
      some (Val.int (wAgentD.pos.getD 0 0)) ∧
    dictGet? (renderEntry wGrid.portrayal_method wAgentD) "y" =
      some (Val.int (wAgentD.pos.getD 1 0)) :=
  render_overwrites_coordinates wGrid wModel wOut wAgentD wPD rfl (by decide)
    rfl rfl

/-- Witness for C2: four agents, two kept, frame of length two; the empty
model renders to the empty frame. -/
theorem render_length_eq_kept_count_witness :
    wOut.length = wModel.schedule.agents.countP
      (fun a => keep (wGrid.portrayal_method a)) ∧
    wOut.length ≤ wModel.schedule.agents.length ∧
    wGrid.render ⟨⟨[]⟩⟩ = Except.ok [] :=
  render_length_eq_kept_count wGrid wModel wOut rfl

/-- Witness for C3: the concrete frame is exactly the kept agents in input
order, mapped to their injected portrayals. -/
theorem render_preserves_order_witness :
    wOut = (wModel.schedule.agents.filter
      (fun a => keep (wGrid.portrayal_method a))).map
      (renderEntry wGrid.portrayal_method) :=
  render_preserves_order wGrid wModel wOut rfl

/-- Witness for C4 at agent D and key `"Shape"`; `"r"` and `"scale"` are both
set and both pass through unchanged. -/
theorem render_passes_through_other_keys_witness :
    renderEntry wGrid.portrayal_method wAgentD ∈ wOut ∧
    dictGet? (renderEntry wGrid.portrayal_method wAgentD) "Shape" =
      dictGet? wPD "Shape" ∧
    dictGet? (renderEntry wGrid.portrayal_method wAgentD) "r" =
      dictGet? wPD "r" ∧
    dictGet? (renderEntry wGrid.portrayal_method wAgentD) "scale" =
      dictGet? wPD "scale" :=
  render_passes_through_other_keys wGrid wModel wOut wAgentD wPD "Shape" rfl
    (by decide) rfl rfl (by decide) (by decide)

/-- A portrayal function that raises (models a Python exception) on every
agent but the first. -/
def wFnE : Agent → Except Unit (Option Portrayal) := fun a =>
  if a.unique_id = 0 then Except.ok (some [("Shape", Val.str "circle")])
  else Except.error ()

def wGridE : SVGGrid Unit := SVGGrid.init wFnE 10 10 500 500

def wModelE : Model := ⟨⟨[wAgentA, wAgentB, wAgentC]⟩⟩

/-- Witness for C5: agent A renders fine, agent B raises; the raised exception
comes back unmodified and no frame is produced. -/
theorem render_propagates_portrayal_error_witness :
    wGridE.render wModelE = Except.error (RenderErr.portrayalErr ()) :=
  render_propagates_portrayal_error wGridE wModelE [wAgentA] [wAgentC] wAgentB
    () rfl (by decide) rfl

def wGrid2 : SVGGrid Unit := SVGGrid.init wFn 99 77 123 456

def wModel2 : Model := ⟨⟨[wAgentA, wAgentB, wAgentC, wAgentD]⟩⟩

/-- Witness for C6: a second instance with entirely different grid and canvas
dimensions, on a second model with the same agents, renders the same frame. -/
theorem render_deterministic_stateless_witness :
    wGrid.render wModel = wGrid2.render wModel2 :=
  render_deterministic_stateless wGrid wGrid2 wModel wModel2 rfl rfl

/-- A heap-level portrayal function returning a reference to the pre-existing
dictionary `0` — no fresh allocation. -/
def wHeapFn : Agent → Heap → Option Nat × Heap := fun _ h => (some 0, h)

def wHeap : Heap :=
  ⟨[[("Shape", Val.str "square"), ("x", Val.int 99), ("y", Val.int 99)]]⟩

/-- Witness for C8: both agents’ portrayal calls return the same pre-existing
reference `0`; the frame holds that very reference at the head, the run
continues in the heap mutated in place at it, and a two-agent run leaves the
heap’s population unchanged. -/
theorem renderHeap_mutates_in_place_witness :
    renderHeap wHeapFn (wAgentD :: [wAgentA]) wHeap =
      (0 :: (renderHeap wHeapFn [wAgentA] (heapSet wHeap 0
          (injectXY (heapGet wHeap 0) (wAgentD.pos.getD 0 0)
            (wAgentD.pos.getD 1 0)))).1,
        (renderHeap wHeapFn [wAgentA] (heapSet wHeap 0
          (injectXY (heapGet wHeap 0) (wAgentD.pos.getD 0 0)
            (wAgentD.pos.getD 1 0)))).2) ∧
    (renderHeap wHeapFn [wAgentD, wAgentA] wHeap).2.dicts.length =
      wHeap.dicts.length :=
  renderHeap_mutates_in_place wHeapFn wAgentD [wAgentA] [wAgentD, wAgentA]
    wHeap wHeap wHeap 0 rfl rfl (fun _ _ => rfl)

/-- Witness for C10: every kept agent of `wModel` has a two-component
position, so no `IndexError` can arise. -/
theorem render_position_access_safe_witness :
    wGrid.render wModel ≠ Except.error (RenderErr.indexErr 0) :=
  render_position_access_safe wGrid wModel (by decide) 0
